import Mathlib

/-!
Verification of the BQC qualification rules engine.

This file embeds, over exact rational arithmetic, the calculation and
validation routines of the two front-ends of the repository: the desktop
application (`BQC.py`) and the web application (`earth_engine.py`).
Currency amounts (Lakhs), percentages and periods are modelled as `ℚ`;
Python `int()` truncation of a nonnegative quantity is modelled as the
integer floor; tender-type and divisibility selections are modelled as the
strings the source compares against.
-/

/-- The ascending EMD tier table `EMD_THRESHOLDS` shared by `BQC.py` and
`earth_engine.py`, with the source's decimal literals written as the exact
rationals `2.5 = 5/2` and `7.5 = 15/2`.  The final `(float(\x27inf\x27), 20)`
sentinel row of the source is not listed here; it is modelled by the base
case of `emd_scan`, which returns `20` when no finite threshold applies. -/
def EMD_THRESHOLDS : List (ℚ × ℚ) :=
  [(50, 0), (100, 1), (500, 5/2), (1000, 5), (1500, 15/2), (2500, 10)]

/-- The ascending scan of `calculate_emd`: return the EMD of the first row
whose threshold is at least the estimated value, with the special case that
the `100` tier yields `0` for the tender types `Goods` and `Services`;
past every finite threshold the infinite sentinel row yields `20`. -/
def emd_scan (estimated_value : ℚ) (tender_type : String) : List (ℚ × ℚ) → ℚ
  | [] => 20
  | (threshold, emd) :: rest =>
    if estimated_value ≤ threshold then
      if threshold = 100 ∧ (tender_type = "Goods" ∨ tender_type = "Services") then 0
      else emd
    else emd_scan estimated_value tender_type rest

/-- `calculate_emd` from `BQC.py` (identical in `earth_engine.py`):
estimates below `50` give `0`, otherwise the tier table is scanned
ascending. -/
def calculate_emd (estimated_value : ℚ) (tender_type : String) : ℚ :=
  if estimated_value < 50 then 0
  else emd_scan estimated_value tender_type EMD_THRESHOLDS

/-- Closed form of `calculate_emd` obtained by unrolling the tier scan. -/
lemma calculate_emd_eq (e : ℚ) (t : String) :
    calculate_emd e t =
      if e < 50 then 0
      else if e ≤ 50 then 0
      else if e ≤ 100 then (if t = "Goods" ∨ t = "Services" then 0 else 1)
      else if e ≤ 500 then 5/2
      else if e ≤ 1000 then 5
      else if e ≤ 1500 then 15/2
      else if e ≤ 2500 then 10
      else 20 := by
  unfold calculate_emd EMD_THRESHOLDS
  by_cases h0 : e < 50
  · simp [h0]
  · norm_num [h0, emd_scan]

/-- The standard performance-security percent determined in
`generate_bqc_document` (both front-ends): `5` when the tender type is in
the list `[\x27Goods\x27, \x27Services\x27]`, otherwise `10`. -/
def standard_performance_security (tender_type : String) : ℕ :=
  if tender_type = "Goods" ∨ tender_type = "Services" then 5 else 10

/-- The performance-security resolution of section 7 of the generated
document: the requested percent is echoed unchanged, the standard percent
is computed from the tender type, and the override flag is set exactly when
the two differ (`data[\x27performance_security\x27] != standard_ps`). -/
def resolve_performance_security (tender_type : String) (requested : ℕ) :
    ℕ × ℕ × Bool :=
  (requested, standard_performance_security tender_type,
    requested != standard_performance_security tender_type)

/-- The turnover basis percentage of `generate_bqc_document` and
`update_calculated_values` in `BQC.py`: base `0.3 = 3/10`, scaled by
`(1 + correction_factor)` when the tender is divisible. -/
def turnover_basis_percentage (divisibility : String) (correction_factor : ℚ) : ℚ :=
  if divisibility = "Divisible" then 3/10 * (1 + correction_factor) else 3/10

/-- The maintenance value used by the turnover calculation: `amc_value`
when `has_amc` is set, `0` otherwise. -/
def maintenance_value (has_amc : Bool) (amc_value : ℚ) : ℚ :=
  if has_amc then amc_value else 0

/-- The turnover requirement of `generate_bqc_document` in `BQC.py`: the
basis percentage applied to `cec_estimate_incl_gst - maintenance_value`
when the maintenance value is positive, and to `cec_estimate_excl_gst`
otherwise. -/
def turnover_requirement (divisibility : String) (correction_factor : ℚ)
    (has_amc : Bool) (amc_value : ℚ)
    (cec_estimate_incl_gst cec_estimate_excl_gst : ℚ) : ℚ :=
  let base_percentage := turnover_basis_percentage divisibility correction_factor
  let m := maintenance_value has_amc amc_value
  if m > 0 then base_percentage * (cec_estimate_incl_gst - m)
  else base_percentage * cec_estimate_excl_gst

/-- The experience-option percentages of `generate_bqc_document` in
`BQC.py` (`0.4 = 2/5`, `0.5 = 1/2`, `0.8 = 4/5`), each scaled by
`(1 + correction_factor)` when the tender is divisible. -/
def experience_option_percents (divisibility : String) (correction_factor : ℚ) :
    ℚ × ℚ × ℚ :=
  if divisibility = "Divisible" then
    (2/5 * (1 + correction_factor), 1/2 * (1 + correction_factor),
      4/5 * (1 + correction_factor))
  else (2/5, 1/2, 4/5)

/-- The experience-option values of `generate_bqc_document` in `BQC.py`:
for tender types `Service` and `Works` the three percentages are applied to
`cec_estimate_incl_gst`; for other tender types the source computes no
options, modelled as `none`. -/
def experience_option_values (tender_type divisibility : String)
    (correction_factor cec_estimate_incl_gst : ℚ) : Option (ℚ × ℚ × ℚ) :=
  if tender_type = "Service" ∨ tender_type = "Works" then
    let p := experience_option_percents divisibility correction_factor
    some (p.1 * cec_estimate_incl_gst, p.2.1 * cec_estimate_incl_gst,
      p.2.2 * cec_estimate_incl_gst)
  else none

/-- The annualized estimated value of `generate_bqc_document` in `BQC.py`
(years variant): `cec_estimate_excl_gst / contract_period_years` when the
period is positive, otherwise the explicitly supplied `annualized_value`. -/
def annualized_value_years (contract_period_years cec_estimate_excl_gst
    annualized_value : ℚ) : ℚ :=
  if contract_period_years > 0 then
    cec_estimate_excl_gst / contract_period_years
  else annualized_value

/-- The annualized estimated value of `generate_bqc_document` in
`earth_engine.py` (months variant):
`(cec_estimate_excl_gst / contract_period_months) * 12` when the period is
positive, otherwise the explicitly supplied `annualized_value`. -/
def annualized_value_months (contract_period_months cec_estimate_excl_gst
    annualized_value : ℚ) : ℚ :=
  if contract_period_months > 0 then
    cec_estimate_excl_gst / contract_period_months * 12
  else annualized_value

/-- Division guarded by a strict positivity check on the divisor: `none`
when the divisor is not strictly positive. -/
def checked_div (a b : ℚ) : Option ℚ :=
  if 0 < b then some (a / b) else none

/-- The years variant of the annualized value with every division routed
through `checked_div`; used to state that the source divides only under a
strictly positive guard. -/
def annualized_value_years_checked (contract_period_years cec_estimate_excl_gst
    annualized_value : ℚ) : Option ℚ :=
  if contract_period_years > 0 then
    checked_div cec_estimate_excl_gst contract_period_years
  else some annualized_value

/-- The months variant of the annualized value with every division routed
through `checked_div`. -/
def annualized_value_months_checked (contract_period_months cec_estimate_excl_gst
    annualized_value : ℚ) : Option ℚ :=
  if contract_period_months > 0 then
    (checked_div cec_estimate_excl_gst contract_period_months).map (fun q => q * 12)
  else some annualized_value

/-- Modelled from the spec: the consolidated annualized-value chain of
section 4.3 — a positive years-based period takes precedence, then a
positive months-based period, then the explicitly supplied value.  Each
code variant carries only one period signal, so it instantiates this chain
with the other signal absent (zero). -/
def annualized_value_spec_chain (years months cec_estimate_excl_gst
    annualized_value : ℚ) : ℚ :=
  if years > 0 then cec_estimate_excl_gst / years
  else if months > 0 then cec_estimate_excl_gst / months * 12
  else annualized_value

/-- The group-adjusted supplying capacity of `generate_bqc_document` in
`BQC.py`: `int(base_supplying_capacity * 0.3)` with `0.3 = 3/10`; the
spin-box base is a nonnegative integer, so Python `int()` truncation is the
integer floor. -/
def calculated_supplying_capacity (base_supplying_capacity : ℕ) : ℤ :=
  ⌊(base_supplying_capacity : ℚ) * (3/10)⌋

/-- The final supplying capacity of `generate_bqc_document` in `BQC.py`:
`int(calculated_supplying_capacity * 0.85)` (`0.85 = 17/20`, a 15 percent
relaxation) when MSE relaxation applies, otherwise the group-adjusted
figure unchanged. -/
def final_supplying_capacity (mse_relaxation : Bool)
    (base_supplying_capacity : ℕ) : ℤ :=
  if mse_relaxation then
    ⌊(calculated_supplying_capacity base_supplying_capacity : ℚ) * (17/20)⌋
  else calculated_supplying_capacity base_supplying_capacity

/-- The tender record of the desktop front-end (`BQC.py`), restricted to
the fields that feed validation or a computed value.  Free-text fields are
strings (the Python falsy test on a missing field is the test against the
empty string); currency, period and factor fields are exact rationals;
`supplying_capacity` (spin box `0..1000`) and `performance_security`
(spin box `0..20`) are natural numbers. -/
structure TenderRecord where
  ref_number : String
  tender_description : String
  pr_reference : String
  budget_details : String
  scope_of_work : String
  delivery_period : String
  warranty_period : String
  similar_work_definition : String
  tender_type : String
  divisibility : String
  cec_estimate_incl_gst : ℚ
  cec_estimate_excl_gst : ℚ
  contract_period_years : ℚ
  annualized_value : ℚ
  amc_value : ℚ
  correction_factor : ℚ
  supplying_capacity : ℕ
  performance_security : ℕ
  mse_relaxation : Bool
  has_amc : Bool
deriving DecidableEq, Repr

/-- `validate_input` from `BQC.py`: the error list is accumulated in
program order — the five required fields in declaration order, the three
numeric estimate rules, the contract-period rule, the Goods-specific rules
and the Service/Works-specific rule — and validity is `len(errors) == 0`. -/
def validate_input (d : TenderRecord) : Bool × List String :=
  let errors :=
    (if d.ref_number = "" then ["Field \x27Ref Number\x27 is required"] else []) ++
    (if d.tender_description = "" then ["Field \x27Tender Description\x27 is required"] else []) ++
    (if d.pr_reference = "" then ["Field \x27Pr Reference\x27 is required"] else []) ++
    (if d.budget_details = "" then ["Field \x27Budget Details\x27 is required"] else []) ++
    (if d.scope_of_work = "" then ["Field \x27Scope Of Work\x27 is required"] else []) ++
    (if d.cec_estimate_incl_gst ≤ 0 then ["CEC Estimate (incl. GST) must be greater than 0"] else []) ++
    (if d.cec_estimate_excl_gst ≤ 0 then ["CEC Estimate (excl. GST) must be greater than 0"] else []) ++
    (if d.cec_estimate_incl_gst < d.cec_estimate_excl_gst then
      ["CEC Estimate (incl. GST) must be greater than or equal to CEC Estimate (excl. GST)"] else []) ++
    (if d.contract_period_years ≤ 0 then ["Contract Period (Years) must be greater than 0"] else []) ++
    (if d.tender_type = "Goods" then
      (if d.delivery_period = "" then ["Delivery Period is required for Goods tenders"] else []) ++
      (if d.warranty_period = "" then ["Warranty Period is required for Goods tenders"] else [])
    else []) ++
    (if d.tender_type = "Service" ∨ d.tender_type = "Works" then
      (if d.similar_work_definition = "" then
        ["Definition of Similar Work is required for Service/Works tenders"] else [])
    else [])
  (errors.length == 0, errors)

/-- The Python test `value.strip() == ""`: the string strips to empty
exactly when every character is whitespace. -/
def is_blank (value : String) : Bool :=
  value.data.all Char.isWhitespace

/-- `sanitize_value` from `BQC.py`: a value that is `None` or strips to
the empty string is stored as the string `NA`. -/
def sanitize_value (value : String) : String :=
  if is_blank value then "NA" else value

/-- The store-then-load cycle of `save_data` / `load_data` in `BQC.py`,
expressed field by field.  Saved string fields pass through
`sanitize_value`; on load each column goes through a Python `or` default,
which replaces a stored `0` of `supplying_capacity` with `30` and a stored
`0` of `performance_security` with `5`, and is the numeric identity on
every other field that feeds a computed value (`x or 0` leaves every
number unchanged).  `ref_number` is saved raw and restored unchanged. -/
def roundtrip (r : TenderRecord) : TenderRecord :=
  { ref_number := r.ref_number
    tender_description := sanitize_value r.tender_description
    pr_reference := sanitize_value r.pr_reference
    budget_details := sanitize_value r.budget_details
    scope_of_work := sanitize_value r.scope_of_work
    delivery_period := sanitize_value r.delivery_period
    warranty_period := sanitize_value r.warranty_period
    similar_work_definition := sanitize_value r.similar_work_definition
    tender_type := sanitize_value r.tender_type
    divisibility := sanitize_value r.divisibility
    cec_estimate_incl_gst := r.cec_estimate_incl_gst
    cec_estimate_excl_gst := r.cec_estimate_excl_gst
    contract_period_years := r.contract_period_years
    annualized_value := r.annualized_value
    amc_value := r.amc_value
    correction_factor := r.correction_factor
    supplying_capacity := if r.supplying_capacity = 0 then 30 else r.supplying_capacity
    performance_security := if r.performance_security = 0 then 5 else r.performance_security
    mse_relaxation := r.mse_relaxation
    has_amc := r.has_amc }

/-- The qualification figures computed by `generate_bqc_document` in
`BQC.py` from a tender record. -/
structure QualificationResult where
  emd_amount : ℚ
  annualized_value : ℚ
  turnover_basis : ℚ
  turnover : ℚ
  experience : Option (ℚ × ℚ × ℚ)
  supplying_capacity_group : ℤ
  supplying_capacity_final : ℤ
  standard_ps : ℕ
  requested_ps : ℕ
  is_overridden : Bool
deriving DecidableEq, Repr

/-- The qualification result as a pure function of a tender record,
assembling the calculators of `generate_bqc_document` in `BQC.py`. -/
def compute_result (r : TenderRecord) : QualificationResult :=
  { emd_amount := calculate_emd r.cec_estimate_excl_gst r.tender_type
    annualized_value := annualized_value_years r.contract_period_years
      r.cec_estimate_excl_gst r.annualized_value
    turnover_basis := turnover_basis_percentage r.divisibility r.correction_factor
    turnover := turnover_requirement r.divisibility r.correction_factor
      r.has_amc r.amc_value r.cec_estimate_incl_gst r.cec_estimate_excl_gst
    experience := experience_option_values r.tender_type r.divisibility
      r.correction_factor r.cec_estimate_incl_gst
    supplying_capacity_group := calculated_supplying_capacity r.supplying_capacity
    supplying_capacity_final := final_supplying_capacity r.mse_relaxation r.supplying_capacity
    standard_ps := standard_performance_security r.tender_type
    requested_ps := r.performance_security
    is_overridden := r.performance_security != standard_performance_security r.tender_type }

/-- The tender record of the web front-end (`earth_engine.py`), restricted
to the fields that feed its validator or a computed value.  It carries a
free-text `contract_period` plus a months-based numeric period instead of
the years-based period of the desktop variant. -/
structure EarthTenderRecord where
  ref_number : String
  item_name : String
  project_name : String
  tender_description : String
  pr_reference : String
  budget_details : String
  scope_of_work : String
  contract_period : String
  delivery_period : String
  warranty_period : String
  similar_work_definition : String
  tender_type : String
  cec_estimate_incl_gst : ℚ
  cec_estimate_excl_gst : ℚ
  contract_period_months : ℚ
  annualized_value : ℚ
deriving DecidableEq, Repr

/-- `validate_input` from `earth_engine.py`: eight required fields in
declaration order, then the three numeric estimate rules, then the
type-specific rules, and the positive period-or-annualized rule checked
last of all. -/
def earth_validate_input (d : EarthTenderRecord) : Bool × List String :=
  let errors :=
    (if d.ref_number = "" then ["Field \x27Ref Number\x27 is required"] else []) ++
    (if d.item_name = "" then ["Field \x27Item Name\x27 is required"] else []) ++
    (if d.project_name = "" then ["Field \x27Project Name\x27 is required"] else []) ++
    (if d.tender_description = "" then ["Field \x27Tender Description\x27 is required"] else []) ++
    (if d.pr_reference = "" then ["Field \x27Pr Reference\x27 is required"] else []) ++
    (if d.budget_details = "" then ["Field \x27Budget Details\x27 is required"] else []) ++
    (if d.scope_of_work = "" then ["Field \x27Scope Of Work\x27 is required"] else []) ++
    (if d.contract_period = "" then ["Field \x27Contract Period\x27 is required"] else []) ++
    (if d.cec_estimate_incl_gst ≤ 0 then ["CEC Estimate (incl. GST) must be greater than 0"] else []) ++
    (if d.cec_estimate_excl_gst ≤ 0 then ["CEC Estimate (excl. GST) must be greater than 0"] else []) ++
    (if d.cec_estimate_incl_gst < d.cec_estimate_excl_gst then
      ["CEC Estimate (incl. GST) must be greater than or equal to CEC Estimate (excl. GST)"] else []) ++
    (if d.tender_type = "Goods" then
      (if d.delivery_period = "" then ["Delivery Period is required for Goods tenders"] else []) ++
      (if d.warranty_period = "" then ["Warranty Period is required for Goods tenders"] else [])
    else []) ++
    (if d.tender_type = "Service" ∨ d.tender_type = "Works" then
      (if d.similar_work_definition = "" then
        ["Definition of Similar Work is required for Service/Works tenders"] else [])
    else []) ++
    (if d.contract_period_months ≤ 0 ∧ d.annualized_value ≤ 0 then
      ["Either Contract Period (months) or Annualized Estimated Value must be greater than 0"]
    else [])
  (errors.length == 0, errors)

/-- The required-field messages of the desktop validator, in declaration
order. -/
def bqc_required_errors (d : TenderRecord) : List String :=
  (if d.ref_number = "" then ["Field \x27Ref Number\x27 is required"] else []) ++
  (if d.tender_description = "" then ["Field \x27Tender Description\x27 is required"] else []) ++
  (if d.pr_reference = "" then ["Field \x27Pr Reference\x27 is required"] else []) ++
  (if d.budget_details = "" then ["Field \x27Budget Details\x27 is required"] else []) ++
  (if d.scope_of_work = "" then ["Field \x27Scope Of Work\x27 is required"] else [])

/-- The numeric-rule messages of the desktop validator: positive inclusive
estimate, positive exclusive estimate, inclusive at least exclusive, and
positive contract period. -/
def bqc_numeric_errors (d : TenderRecord) : List String :=
  (if d.cec_estimate_incl_gst ≤ 0 then ["CEC Estimate (incl. GST) must be greater than 0"] else []) ++
  (if d.cec_estimate_excl_gst ≤ 0 then ["CEC Estimate (excl. GST) must be greater than 0"] else []) ++
  (if d.cec_estimate_incl_gst < d.cec_estimate_excl_gst then
    ["CEC Estimate (incl. GST) must be greater than or equal to CEC Estimate (excl. GST)"] else []) ++
  (if d.contract_period_years ≤ 0 then ["Contract Period (Years) must be greater than 0"] else [])

/-- The type-specific messages of the desktop validator. -/
def bqc_type_errors (d : TenderRecord) : List String :=
  (if d.tender_type = "Goods" then
    (if d.delivery_period = "" then ["Delivery Period is required for Goods tenders"] else []) ++
    (if d.warranty_period = "" then ["Warranty Period is required for Goods tenders"] else [])
  else []) ++
  (if d.tender_type = "Service" ∨ d.tender_type = "Works" then
    (if d.similar_work_definition = "" then
      ["Definition of Similar Work is required for Service/Works tenders"] else [])
  else [])

/-- The required-field messages of the web validator, in declaration
order. -/
def earth_required_errors (d : EarthTenderRecord) : List String :=
  (if d.ref_number = "" then ["Field \x27Ref Number\x27 is required"] else []) ++
  (if d.item_name = "" then ["Field \x27Item Name\x27 is required"] else []) ++
  (if d.project_name = "" then ["Field \x27Project Name\x27 is required"] else []) ++
  (if d.tender_description = "" then ["Field \x27Tender Description\x27 is required"] else []) ++
  (if d.pr_reference = "" then ["Field \x27Pr Reference\x27 is required"] else []) ++
  (if d.budget_details = "" then ["Field \x27Budget Details\x27 is required"] else []) ++
  (if d.scope_of_work = "" then ["Field \x27Scope Of Work\x27 is required"] else []) ++
  (if d.contract_period = "" then ["Field \x27Contract Period\x27 is required"] else [])

/-- The three estimate-rule messages of the web validator. -/
def earth_numeric_errors (d : EarthTenderRecord) : List String :=
  (if d.cec_estimate_incl_gst ≤ 0 then ["CEC Estimate (incl. GST) must be greater than 0"] else []) ++
  (if d.cec_estimate_excl_gst ≤ 0 then ["CEC Estimate (excl. GST) must be greater than 0"] else []) ++
  (if d.cec_estimate_incl_gst < d.cec_estimate_excl_gst then
    ["CEC Estimate (incl. GST) must be greater than or equal to CEC Estimate (excl. GST)"] else [])

/-- The type-specific messages of the web validator. -/
def earth_type_errors (d : EarthTenderRecord) : List String :=
  (if d.tender_type = "Goods" then
    (if d.delivery_period = "" then ["Delivery Period is required for Goods tenders"] else []) ++
    (if d.warranty_period = "" then ["Warranty Period is required for Goods tenders"] else [])
  else []) ++
  (if d.tender_type = "Service" ∨ d.tender_type = "Works" then
    (if d.similar_work_definition = "" then
      ["Definition of Similar Work is required for Service/Works tenders"] else [])
  else [])

/-- The period-or-annualized message of the web validator. -/
def earth_period_errors (d : EarthTenderRecord) : List String :=
  if d.contract_period_months ≤ 0 ∧ d.annualized_value ≤ 0 then
    ["Either Contract Period (months) or Annualized Estimated Value must be greater than 0"]
  else []

/-- Modelled from the spec: the error order the specification claims for
every validator — required fields, then all numeric rules with the
positive-period rule among them, then the type-specific rules. -/
def earth_claimed_error_order (d : EarthTenderRecord) : List String :=
  earth_required_errors d ++ earth_numeric_errors d ++ earth_period_errors d ++
    earth_type_errors d

/-- Sanitizing cannot create or destroy equality with a non-blank literal
other than `NA`. -/
lemma sanitize_value_eq_iff (s lit : String) (h1 : lit ≠ "NA")
    (h2 : is_blank lit = false) : sanitize_value s = lit ↔ s = lit := by
  unfold sanitize_value
  split_ifs with h
  · constructor
    · intro hna
      exact absurd hna.symm h1
    · intro hs
      subst hs
      rw [h] at h2
      exact absurd h2 (by simp)
  · exact Iff.rfl

/-- The EMD calculation is unchanged by storing and reloading the tender
type. -/
lemma calculate_emd_sanitize (e : ℚ) (t : String) :
    calculate_emd e (sanitize_value t) = calculate_emd e t := by
  rw [calculate_emd_eq, calculate_emd_eq]
  simp only [sanitize_value_eq_iff t ("Goods") (by decide) (by decide),
    sanitize_value_eq_iff t ("Services") (by decide) (by decide)]

/-- The standard performance-security percent is unchanged by storing and
reloading the tender type. -/
lemma standard_performance_security_sanitize (t : String) :
    standard_performance_security (sanitize_value t) =
      standard_performance_security t := by
  unfold standard_performance_security
  simp only [sanitize_value_eq_iff t ("Goods") (by decide) (by decide),
    sanitize_value_eq_iff t ("Services") (by decide) (by decide)]

/-- The turnover basis percentage is unchanged by storing and reloading
the divisibility selection. -/
lemma turnover_basis_percentage_sanitize (dv : String) (cf : ℚ) :
    turnover_basis_percentage (sanitize_value dv) cf =
      turnover_basis_percentage dv cf := by
  unfold turnover_basis_percentage
  simp only [sanitize_value_eq_iff dv ("Divisible") (by decide) (by decide)]

/-- The turnover requirement is unchanged by storing and reloading the
divisibility selection. -/
lemma turnover_requirement_sanitize (dv : String) (cf : ℚ) (ha : Bool)
    (amc incl excl : ℚ) :
    turnover_requirement (sanitize_value dv) cf ha amc incl excl =
      turnover_requirement dv cf ha amc incl excl := by
  unfold turnover_requirement
  rw [turnover_basis_percentage_sanitize]

/-- The experience options are unchanged by storing and reloading the
tender type and the divisibility selection. -/
lemma experience_option_values_sanitize (t dv : String) (cf incl : ℚ) :
    experience_option_values (sanitize_value t) (sanitize_value dv) cf incl =
      experience_option_values t dv cf incl := by
  unfold experience_option_values experience_option_percents
  simp only [sanitize_value_eq_iff t ("Service") (by decide) (by decide),
    sanitize_value_eq_iff t ("Works") (by decide) (by decide),
    sanitize_value_eq_iff dv ("Divisible") (by decide) (by decide)]

/-- A valid Goods record whose supplying-capacity base is `0`: the load
path replaces the stored `0` with the default `30`. -/
def roundtrip_zero_record : TenderRecord :=
  { ref_number := "T-100"
    tender_description := "Pumps"
    pr_reference := "PR-1"
    budget_details := "Budget head A"
    scope_of_work := "Supply of pumps"
    delivery_period := "30 days"
    warranty_period := "12 months"
    similar_work_definition := ""
    tender_type := "Goods"
    divisibility := "Non-Divisible"
    cec_estimate_incl_gst := 100
    cec_estimate_excl_gst := 90
    contract_period_years := 2
    annualized_value := 0
    amc_value := 0
    correction_factor := 0
    supplying_capacity := 0
    performance_security := 5
    mse_relaxation := false
    has_amc := false }

/-- The same valid Goods record with a nonzero supplying-capacity base. -/
def roundtrip_valid_record : TenderRecord :=
  { roundtrip_zero_record with supplying_capacity := 30 }

/-- A record missing two distinct required fields (`ref_number` and
`pr_reference`). -/
def missing_fields_record : TenderRecord :=
  { roundtrip_zero_record with ref_number := "", pr_reference := "" }

/-- A web-variant Goods record violating both the delivery-period rule and
the period-or-annualized rule, used to exhibit the order in which the web
validator reports them. -/
def earth_order_record : EarthTenderRecord :=
  { ref_number := "T-200"
    item_name := "Valves"
    project_name := "Plant"
    tender_description := "Valves"
    pr_reference := "PR-2"
    budget_details := "Budget head B"
    scope_of_work := "Supply of valves"
    contract_period := "6 months"
    delivery_period := ""
    warranty_period := "12 months"
    similar_work_definition := ""
    tender_type := "Goods"
    cec_estimate_incl_gst := 100
    cec_estimate_excl_gst := 90
    contract_period_months := 0
    annualized_value := 0 }

/-- Claim C1: the tier lookup behaves as claimed on the quoted instances,
but the carve-out is keyed on the literal string `Services`, which is not
the tender-type enum value `Service`; at the failing input `(75, Service)`
the code returns `1` where the claim requires the carve-out (hence `0`). -/
theorem calculate_emd_service_carve_out_bug :
    calculate_emd 75 ("Service") = 1 ∧
    calculate_emd 75 ("Services") = 0 ∧
    calculate_emd 40 ("Goods") = 0 ∧
    calculate_emd 75 ("Goods") = 0 ∧
    calculate_emd 75 ("Works") = 1 ∧
    calculate_emd 300 ("Goods") = 5/2 ∧
    calculate_emd 3000 ("Goods") = 20 := by
  refine ⟨?_, ?_, ?_, ?_, ?_, ?_, ?_⟩ <;> rw [calculate_emd_eq] <;> norm_num <;> decide

/-- Claim C2: the requested percent is echoed unchanged and the override
flag compares it with the standard percent, and the Works instances hold;
but the standard percent for the tender-type enum value `Service` is `10`,
not `5`, because the code tests membership in the literal list
`[Goods, Services]`: at the failing input `(Service, 5)` the code marks the
requested `5` as overridden against a standard of `10`. -/
theorem performance_security_service_standard_bug :
    standard_performance_security ("Service") = 10 ∧
    standard_performance_security ("Goods") = 5 ∧
    standard_performance_security ("Services") = 5 ∧
    standard_performance_security ("Works") = 10 ∧
    resolve_performance_security ("Service") 5 = (5, 10, true) ∧
    resolve_performance_security ("Works") 10 = (10, 10, false) ∧
    resolve_performance_security ("Works") 12 = (12, 10, true) := by
  decide

set_option maxHeartbeats 1600000 in
/-- Claim C9: for each fixed tender type, `calculate_emd` is monotone
non-decreasing in the estimate; the Goods/Services carve-out zeroes the
`100` tier, whose lower tiers are already zero, so monotonicity holds with
no deviation at all. -/
theorem calculate_emd_monotone :
    ∀ (t : String) (x y : ℚ), x ≤ y → calculate_emd x t ≤ calculate_emd y t := by
  intro t x y hxy
  rw [calculate_emd_eq, calculate_emd_eq]
  split_ifs <;> linarith

/-- Witness for C9 at the concrete pair `60 ≤ 300` with tender type
`Works`. -/
theorem calculate_emd_monotone_witness :
    calculate_emd 60 ("Works") ≤ calculate_emd 300 ("Works") :=
  calculate_emd_monotone ("Works") 60 300 (by norm_num)

/-- Claim C10: `calculate_emd` is total — it is a Lean function defined
for every rational estimate and every tender-type string — and its result
is always one of the seven tier amounts
`0, 1, 2.5, 5, 7.5, 10, 20` (as exact rationals). -/
theorem calculate_emd_total_range :
    ∀ (e : ℚ) (t : String),
      calculate_emd e t = 0 ∨ calculate_emd e t = 1 ∨ calculate_emd e t = 5/2 ∨
      calculate_emd e t = 5 ∨ calculate_emd e t = 15/2 ∨ calculate_emd e t = 10 ∨
      calculate_emd e t = 20 := by
  intro e t
  rw [calculate_emd_eq]
  split_ifs <;> simp

/-- Floor of a natural base times `3/10` is the truncating integer
division `3 * base / 10`. -/
lemma floor_three_tenths (b : ℕ) : ⌊(b : ℚ) * (3/10)⌋ = 3 * (b : ℤ) / 10 := by
  rw [show (b : ℚ) * (3/10) = ((3 * (b : ℤ) : ℤ) : ℚ) / ((10 : ℕ) : ℚ) by push_cast; ring]
  rw [Rat.floor_intCast_div_natCast]
  norm_num

/-- Floor of an integer times `17/20` is the truncating integer division
`17 * c / 20`. -/
lemma floor_seventeen_twentieths (c : ℤ) : ⌊(c : ℚ) * (17/20)⌋ = 17 * c / 20 := by
  rw [show (c : ℚ) * (17/20) = ((17 * c : ℤ) : ℚ) / ((20 : ℕ) : ℚ) by push_cast; ring]
  rw [Rat.floor_intCast_div_natCast]
  norm_num

/-- Claim C5: the group adjustment truncates `base * 0.30`, the MSE
relaxation truncates `0.85` times the already-truncated group figure (not
the raw base), no relaxation leaves the group figure unchanged, and
`base = 30` yields `9` and then `7`.  The final two conjuncts separate the
two truncation orders at `base = 33`: the code's order gives `7` while a
single truncation of `base * 0.3 * 0.85` would give `8`. -/
theorem supplying_capacity_truncation_order :
    (∀ base : ℕ, calculated_supplying_capacity base = 3 * (base : ℤ) / 10) ∧
    (∀ base : ℕ, final_supplying_capacity true base = 17 * (3 * (base : ℤ) / 10) / 20) ∧
    (∀ base : ℕ, final_supplying_capacity false base = calculated_supplying_capacity base) ∧
    calculated_supplying_capacity 30 = 9 ∧
    final_supplying_capacity true 30 = 7 ∧
    final_supplying_capacity true 33 = 7 ∧
    ⌊(33 : ℚ) * (3/10) * (17/20)⌋ = 8 := by
  have h1 : ∀ base : ℕ, calculated_supplying_capacity base = 3 * (base : ℤ) / 10 := by
    intro b
    unfold calculated_supplying_capacity
    exact floor_three_tenths b
  have h2 : ∀ b : ℕ, final_supplying_capacity true b = 17 * (3 * (b : ℤ) / 10) / 20 := by
    intro b
    unfold final_supplying_capacity
    rw [if_pos rfl, h1, floor_seventeen_twentieths]
  refine ⟨h1, h2, ?_, ?_, ?_, ?_, ?_⟩
  · intro b
    unfold final_supplying_capacity
    simp
  · rw [h1]
    norm_num
  · rw [h2]
    norm_num
  · rw [h2]
    norm_num
  · norm_num

/-- Claim C7: each variant of the annualized value instantiates the
spec's years-then-months-then-fallback chain with its missing period
signal absent, and the guarded (`checked_div`) versions always succeed,
i.e. every division the source performs has a strictly positive divisor. -/
theorem annualized_value_variants :
    ∀ (y m excl fallback : ℚ),
      annualized_value_years y excl fallback =
        annualized_value_spec_chain y 0 excl fallback ∧
      annualized_value_months m excl fallback =
        annualized_value_spec_chain 0 m excl fallback ∧
      annualized_value_years_checked y excl fallback =
        some (annualized_value_years y excl fallback) ∧
      annualized_value_months_checked m excl fallback =
        some (annualized_value_months m excl fallback) := by
  intro y m excl fb
  unfold annualized_value_years annualized_value_months annualized_value_spec_chain
    annualized_value_years_checked annualized_value_months_checked checked_div
  refine ⟨?_, ?_, ?_, ?_⟩ <;> split_ifs <;> simp_all

/-- Claim C3: the turnover requirement applies the basis percentage to
`inclGst - maintenanceValue` exactly when maintenance is present with a
positive value, and to `exclGst` otherwise; the basis is `30%`, scaled by
`(1 + correctionFactor)` when divisible; with the claim's concrete
figures the requirement is `300`, `360`, and `315` for every exclusive
estimate. -/
theorem turnover_requirement_correct :
    (∀ (dv : String) (cf amc incl excl : ℚ) (ha : Bool),
      turnover_requirement dv cf ha amc incl excl =
        if ha = true ∧ 0 < amc then
          turnover_basis_percentage dv cf * (incl - amc)
        else turnover_basis_percentage dv cf * excl) ∧
    turnover_basis_percentage ("Non-Divisible") 0 = 3/10 ∧
    turnover_basis_percentage ("Divisible") (1/5) = 9/25 ∧
    turnover_requirement ("Non-Divisible") 0 false 0 1100 1000 = 300 ∧
    turnover_requirement ("Divisible") (1/5) false 0 1200 1000 = 360 ∧
    (∀ excl : ℚ, turnover_requirement ("Non-Divisible") 0 true 50 1100 excl = 315) := by
  have hbase : ∀ cf : ℚ, turnover_basis_percentage ("Non-Divisible") cf = 3/10 := by
    intro cf
    unfold turnover_basis_percentage
    simp
  have hdiv : ∀ cf : ℚ, turnover_basis_percentage ("Divisible") cf = 3/10 * (1 + cf) := by
    intro cf
    unfold turnover_basis_percentage
    simp
  refine ⟨?_, ?_, ?_, ?_, ?_, ?_⟩
  · intro dv cf amc incl excl ha
    unfold turnover_requirement maintenance_value
    cases ha
    · simp
    · simp [gt_iff_lt]
  · rw [hbase]
  · rw [hdiv]
    norm_num
  · unfold turnover_requirement maintenance_value
    rw [hbase]
    norm_num
  · unfold turnover_requirement maintenance_value
    rw [hdiv]
    norm_num
  · intro excl
    unfold turnover_requirement maintenance_value
    rw [hbase]
    norm_num

/-- Claim C6: for Service and Works tenders the experience options are
`40%`, `50%`, `80%` of the inclusive-GST estimate, each scaled by
`(1 + correctionFactor)` when divisible; the values are nonnegative for a
positive estimate and nonnegative correction factor; the claim's concrete
instances give `400/500/800` and `500/625/1000`, and no options are
computed for Goods. -/
theorem experience_options_correct :
    (∀ (t dv : String) (cf incl : ℚ), t = "Service" ∨ t = "Works" →
      experience_option_values t dv cf incl =
        some (if dv = "Divisible" then
          (2/5 * (1 + cf) * incl, 1/2 * (1 + cf) * incl, 4/5 * (1 + cf) * incl)
        else (2/5 * incl, 1/2 * incl, 4/5 * incl))) ∧
    (∀ (t dv : String) (cf incl va vb vc : ℚ), 0 ≤ cf → 0 < incl →
      experience_option_values t dv cf incl = some (va, vb, vc) →
      0 ≤ va ∧ 0 ≤ vb ∧ 0 ≤ vc) ∧
    experience_option_values ("Service") ("Non-Divisible") 0 1000 =
      some (400, 500, 800) ∧
    experience_option_values ("Works") ("Divisible") (1/4) 1000 =
      some (500, 625, 1000) ∧
    experience_option_values ("Goods") ("Non-Divisible") 0 1000 = none := by
  refine ⟨?_, ?_, ?_, ?_, ?_⟩
  · intro t dv cf incl ht
    unfold experience_option_values experience_option_percents
    rw [if_pos ht]
    split_ifs <;> rfl
  · intro t dv cf incl va vb vc hcf hincl h
    have h1cf : (0:ℚ) ≤ 1 + cf := by linarith
    simp only [experience_option_values, experience_option_percents] at h
    split_ifs at h with h1 h2
    · rw [Option.some_inj, Prod.mk.injEq, Prod.mk.injEq] at h
      obtain ⟨hva, hvb, hvc⟩ := h
      subst hva hvb hvc
      refine ⟨?_, ?_, ?_⟩ <;>
        exact mul_nonneg (mul_nonneg (by norm_num) h1cf) hincl.le
    · rw [Option.some_inj, Prod.mk.injEq, Prod.mk.injEq] at h
      obtain ⟨hva, hvb, hvc⟩ := h
      subst hva hvb hvc
      refine ⟨?_, ?_, ?_⟩ <;> exact mul_nonneg (by norm_num) hincl.le
  · norm_num [experience_option_values, experience_option_percents]
  · norm_num [experience_option_values, experience_option_percents]
  · simp [experience_option_values]

/-- Witness for C6: the nonnegativity implication applied at the Service
instance, with the equation hypothesis discharged by the theorem's own
concrete conjunct. -/
theorem experience_options_witness :
    (0:ℚ) ≤ 400 ∧ (0:ℚ) ≤ 500 ∧ (0:ℚ) ≤ 800 :=
  experience_options_correct.2.1 ("Service") ("Non-Divisible") 0 1000 400 500 800
    (by norm_num) (by norm_num) experience_options_correct.2.2.1

/-- Claim C8 (amended): both validators collect every violation into one
deterministic list; the desktop validator (`BQC.py`) reports required
fields in declaration order, then the numeric rules with the positive
period among them, then the type-specific rules — exactly as claimed —
while the web validator (`earth_engine.py`) checks the
period-or-annualized rule after the type-specific rules; a record missing
two distinct required fields reports both messages. -/
theorem validator_order_and_completeness :
    (∀ d : TenderRecord, validate_input d =
      (((bqc_required_errors d ++ bqc_numeric_errors d ++ bqc_type_errors d).length == 0),
        bqc_required_errors d ++ bqc_numeric_errors d ++ bqc_type_errors d)) ∧
    (∀ d : EarthTenderRecord, earth_validate_input d =
      (((earth_required_errors d ++ earth_numeric_errors d ++ earth_type_errors d ++
          earth_period_errors d).length == 0),
        earth_required_errors d ++ earth_numeric_errors d ++ earth_type_errors d ++
          earth_period_errors d)) ∧
    "Field \x27Ref Number\x27 is required" ∈ (validate_input missing_fields_record).2 ∧
    "Field \x27Pr Reference\x27 is required" ∈ (validate_input missing_fields_record).2 := by
  have hb : ∀ d : TenderRecord, validate_input d =
      (((bqc_required_errors d ++ bqc_numeric_errors d ++ bqc_type_errors d).length == 0),
        bqc_required_errors d ++ bqc_numeric_errors d ++ bqc_type_errors d) := by
    intro d
    unfold validate_input bqc_required_errors bqc_numeric_errors bqc_type_errors
    simp [List.append_assoc]
  refine ⟨hb, ?_, ?_, ?_⟩
  · intro d
    unfold earth_validate_input earth_required_errors earth_numeric_errors
      earth_type_errors earth_period_errors
    simp [List.append_assoc]
  · rw [hb]
    norm_num [bqc_required_errors, bqc_numeric_errors, bqc_type_errors,
      missing_fields_record, roundtrip_zero_record]
  · rw [hb]
    norm_num [bqc_required_errors, bqc_numeric_errors, bqc_type_errors,
      missing_fields_record, roundtrip_zero_record]

/-- Counterexample for C8: on a Goods record violating both the
delivery-period rule and the period-or-annualized rule, the web validator
reports the type-specific message before the period message, while the
claimed order (period among the numeric rules, before type-specific rules)
would report them the other way around. -/
theorem earth_validator_order_counterexample :
    (earth_validate_input earth_order_record).2 =
      ["Delivery Period is required for Goods tenders",
        "Either Contract Period (months) or Annualized Estimated Value must be greater than 0"] ∧
    earth_claimed_error_order earth_order_record =
      ["Either Contract Period (months) or Annualized Estimated Value must be greater than 0",
        "Delivery Period is required for Goods tenders"] ∧
    (earth_validate_input earth_order_record).2 ≠
      earth_claimed_error_order earth_order_record := by
  have h1 : (earth_validate_input earth_order_record).2 =
      ["Delivery Period is required for Goods tenders",
        "Either Contract Period (months) or Annualized Estimated Value must be greater than 0"] := by
    norm_num [earth_validate_input, earth_order_record]
    simp
  have h2 : earth_claimed_error_order earth_order_record =
      ["Either Contract Period (months) or Annualized Estimated Value must be greater than 0",
        "Delivery Period is required for Goods tenders"] := by
    norm_num [earth_claimed_error_order, earth_required_errors, earth_numeric_errors,
      earth_type_errors, earth_period_errors, earth_order_record]
    simp
  refine ⟨h1, h2, ?_⟩
  rw [h1, h2]
  simp

/-- Counterexample for C4: a valid Goods record whose supplying-capacity
base is `0` does not survive the store-then-load cycle — the load path's
`or 30` default replaces the stored `0`, so recomputation yields a
different qualification result. -/
theorem roundtrip_alters_result :
    (validate_input roundtrip_zero_record).1 = true ∧
    compute_result (roundtrip roundtrip_zero_record) ≠
      compute_result roundtrip_zero_record := by
  constructor
  · norm_num [validate_input, roundtrip_zero_record]
    decide
  · intro h
    have h2 := congrArg QualificationResult.supplying_capacity_group h
    norm_num [compute_result, roundtrip, roundtrip_zero_record,
      calculated_supplying_capacity] at h2

/-- Claim C4 (amended): the store-then-load cycle preserves every field
that feeds a computed value — and hence the recomputed qualification
result — for every valid record whose supplying-capacity base and
performance-security percent are nonzero; the load path defaults a stored
`0` of those two fields to `30` and `5` respectively. -/
theorem store_load_recompute_identity :
    ∀ r : TenderRecord, (validate_input r).1 = true →
      r.supplying_capacity ≠ 0 → r.performance_security ≠ 0 →
      compute_result (roundtrip r) = compute_result r := by
  intro r hval hsc hps
  unfold compute_result roundtrip
  dsimp only
  rw [if_neg hsc, if_neg hps, calculate_emd_sanitize,
    turnover_basis_percentage_sanitize, turnover_requirement_sanitize,
    experience_option_values_sanitize, standard_performance_security_sanitize]

/-- Witness for C4: the round-trip identity applied to the same valid
record with a nonzero supplying-capacity base. -/
theorem store_load_recompute_witness :
    compute_result (roundtrip roundtrip_valid_record) =
      compute_result roundtrip_valid_record :=
  store_load_recompute_identity roundtrip_valid_record
    (by norm_num [validate_input, roundtrip_valid_record, roundtrip_zero_record]; decide)
    (by norm_num [roundtrip_valid_record])
    (by norm_num [roundtrip_valid_record, roundtrip_zero_record])
